import Mathlib

set_option maxRecDepth 8000

/-!
Verification of `tricore-windows/src/flash.rs` (module `flash`): a shallow
embedding of the `MemtoolUpload` upload session (start / wait), of the
configuration renderer `create_cfg`, and of the batch-script rendering,
together with proofs about the properties stated for them.
-/

/-- Splits a character list at newline characters, keeping empty segments; the
engine behind `strLines`. -/
def splitNl (l : List Char) : List (List Char) :=
  match l with
  | [] => [[]]
  | c :: cs =>
    match splitNl cs with
    | [] => [[c]]
    | x :: xs => if c = '\n' then [] :: x :: xs else (c :: x) :: xs

/-- Lines of a string: the maximal newline-free segments, in order. Used to
state the per-line properties of the rendered artifacts. -/
def strLines (s : String) : List String := (splitNl s.data).map List.asString

/-- Joins a list of lines with a single LF between consecutive lines and no
trailing terminator. `joinLines ls` is byte-identical to the corresponding
multi-line literal with embedded newline characters. -/
def joinLines : List String → String
  | [] => ""
  | [l] => l
  | l :: ls => l ++ "\n" ++ joinLines ls

/-- Last character of a string, if any. -/
def lastChar (s : String) : Option Char := s.data.getLast?

/-- Whether `needle` occurs as a contiguous subsequence of the second list. -/
def hasSub (needle : List Char) : List Char → Bool
  | [] => needle.isEmpty
  | c :: cs => needle.isPrefixOf (c :: cs) || hasSub needle cs

/-- The configuration key whose occurrences are counted: `DasPortSel`. -/
def cfgKey : List Char := "DasPortSel".data

/-- The lines of the `format!` template of `create_cfg` in `flash.rs`,
reproduced verbatim (the template is this list joined with LF; Rust and Lean
share the `\\` escape for a single backslash, and the template contains no
other escape). -/
def cfgTemplateLines : List String :=
  ["[Main]",
   "Signature=UDE_TARGINFO_2.0",
   "MCUs=Controller0",
   "Description=Triboard with TC39x B-Step (DAS)",
   "Description1=Init TLF35584 C-Step on connect",
   "Description2=switch off FLASH error traps",
   "Architecture=TriCore Aurix2G",
   "Vendor=Starter Kits (DAS)",
   "Board=",
   "",
   "[Controller0]",
   "Family=TriCore",
   "Type=TC39xB",
   "Enabled=1",
   "IntClock=100000",
   "ExtClock=20000",
   "",
   "[Controller0.Core0]",
   "Protocol=TC2_JTAG",
   "Enabled=1",
   "",
   "[Controller0.Core0.LoadedAddOn]",
   "UDEMemtool=1",
   "",
   "[Controller0.Core0.Tc2CoreTargIntf]",
   "PortType=DAS",
   "CommDevSel=",
   "MaxJtagClk=5000",
   "DasTryStartSrv=1",
   "DasSrvPath=servers\\udas\\udas.exe",
   "ConnOption=Reset",
   "DiswdtOnReset=1",
   "ExecInitCmds=1",
   "TargetPort=Default",
   "CheckJtagId=1",
   "ScanJTAG=0",
   "Ocds1ViaPod=0",
   "EtksArbiterMode=None",
   "RefreshJtag=0",
   "RefreshHarr=0",
   "ReenableOcds=1",
   "ReduceJtagClock=0",
   "UseDap=0",
   "DapMode=2PIN",
   "SetDebugEnableAb1DisablePin=0",
   "ResetWaitTime=500",
   "ResetMode=Default",
   "OpenDrainReset=0",
   "ExecOnConnectCmds=0",
   "ExecOnExtRstCmds=0",
   "ResetPulseLen=10",
   "AddResetDelay=0",
   "ExecEmemInitOnReset=0x0",
   "UnlockInterface=0",
   "BootPasswd0=0x0",
   "BootPasswd1=0x0",
   "BootPasswd2=0x0",
   "BootPasswd3=0x0",
   "BootPasswd4=0x0",
   "BootPasswd5=0x0",
   "BootPasswd6=0x0",
   "BootPasswd7=0x0",
   "PasswordFile=",
   "HandleBmiHeader=0",
   "SetAutOkOnConnect=0",
   "DontUseWdtSusp=0",
   "InitCore0RamOnConnect=0",
   "IgnoreFailedHaltAfterResetOnConnect=0",
   "TrySystemResetAfterFailedHardwareReset=0",
   "RunStabilityTestOnConnect=0",
   "RunStabilityTestCycles=10",
   "IgnoreFailedEnableOcdsOnConnect=0",
   "UseLbistAwareConnect=0",
   "TC4InitCore0Ram=0",
   "EnableAutomaticCsrmStart=0",
   "EnableAutomaticCsrmRunControl=0",
   "MaxTry=1",
   "UseDflashAccessFilter=1",
   "DetectResetWhileHalted=1",
   "UseTranslateAddr=1",
   "DownloadToAllRams=0",
   "HaltAfterReset=0",
   "HaltAfterHardwareReset=0",
   "TargetAppHandshakeMode=None",
   "TargetAppHandshakeTimeout=100",
   "TargetAppHandshakeParameter0=0x0",
   "TargetAppHandshakeParameter1=0x0",
   "TargetAppHandshakeParameter2=0x0",
   "TargetAppHandshakeParameter3=0x0",
   "SimioAddr=g_JtagSimioAccess",
   "UseStmForPtm=1",
   "ExecOnStartCmds=0",
   "ExecOnHaltCmds=0",
   "ExecOnHaltCmdsWhileHaltedPeriod=0",
   "UseTriggerToBreak=1",
   "UseTL2OnHalt=1",
   "UseOstateStable=1",
   "AllowJtagResetWhileRunning=1",
   "MaxAccRetry=1",
   "AccRetryDelay=10",
   "DebugResetOnDisconnect=0",
   "ReadPmcsrWhileRunning=1",
   "IvIcacheOnHalt=1",
   "IvPlbOnHalt=1",
   "SuspendSlaveCores=0",
   "FilterMemAcc=1",
   "PtmRefClock=0",
   "DasDllPath=das_api.dll",
   "DasHost=",
   "DasStopSrv=1",
   "DasResetHelperBreakAddr=main",
   "DasResetMode=2",
   "DasRemoveLogFile=0",
   "DasForwardSerNum=0",
   "DasSrvSel=-1",
   "DasPortType=0",
   "DasPortSel=0",
   "DasCmdTimeout=1000",
   "DasWaitAfterConnect=0",
   "DasDisconnectSrv=0",
   "DasApiLogging=0",
   "",
   "[Controller0.Core0.Tc2CoreTargIntf.InitScript]",
   "; Init TLF35584 C-Step on connect",
   "SET 0xF0036034  0x11100002",
   "SET 0xF0001E00  0x8",
   "SET 0xF0001E10  0x20003C04",
   "SET 0xF0001E04  0x1",
   "SET 0xF0001E14  0x14000000",
   "SET 0xF0001E24  0x501",
   "SET 0xF0001E48  0x00020000",
   "SET 0xF003AF10  0x98000000",
   "SET 0xF003AF14  0x10980000",
   "SET 0xF003AF40  0x30330333",
   "SET 0xF003AE10  0x10980000",
   "SET 0xF003AE40  0x33333033",
   "WAIT 5",
   "SET 0xF0001E54  0xFFF",
   "SET 0xF0001E60  0x17A10001",
   "SET 0xF0001E54 0x200",
   "WAIT 5",
   "SET 0xF0001E10  0x21003C04",
   "SET 0xF0001E64 0x8756",
   "WAIT 5",
   "SET 0xF0001E54 0x200",
   "WAIT 5",
   "SET 0xF0001E54 0x400",
   "SET 0xF0001E64 0x87DE",
   "WAIT 5",
   "SET 0xF0001E54 0x200",
   "WAIT 5",
   "SET 0xF0001E54 0x400",
   "SET 0xF0001E64 0x86AD",
   "WAIT 5",
   "SET 0xF0001E54 0x200",
   "WAIT 5",
   "SET 0xF0001E54 0x400",
   "SET 0xF0001E64 0x8625",
   "WAIT 5",
   "SET 0xF0001E54 0x200",
   "WAIT 5",
   "SET 0xF0001E54 0x400",
   "SET 0xF0001E64 0x8D27",
   "WAIT 5",
   "SET 0xF0001E54 0x200",
   "WAIT 5",
   "SET 0xF0001E54 0x400",
   "SET 0xF0001E64 0x8A01",
   "WAIT 5",
   "SET 0xF0001E54 0x200",
   "WAIT 5",
   "SET 0xF0001E54 0x400",
   "SET 0xF0001E64 0x87BE",
   "WAIT 5",
   "SET 0xF0001E54 0x200",
   "WAIT 5",
   "SET 0xF0001E54 0x400",
   "SET 0xF0001E64 0x8668",
   "WAIT 5",
   "SET 0xF0001E54 0x200",
   "WAIT 5",
   "SET 0xF0001E54 0x400",
   "SET 0xF0001E64 0x877D",
   "WAIT 5",
   "SET 0xF0001E54 0x200",
   "WAIT 5",
   "SET 0xF0001E54 0x400",
   "SET 0xF0001E64 0x8795",
   "WAIT 5",
   "SET 0xF0001E54 0x200",
   "WAIT 5",
   "SET 0xF0001E54 0x400",
   "WAIT 5",
   "",
   "; switch off FLASH error traps",
   "set 0xF8801104 0x10000",
   "set 0xF8821104 0x10000",
   "set 0xF8841104 0x10000",
   "set 0xF8861104 0x10000",
   "set 0xF8881104 0x10000",
   "set 0xF88C1104 0x10000",
   "set 0xF8040048 0xC0000000",
   "",
   "[Controller0.Core0.Tc2CoreTargIntf.OnStartScript]",
   "",
   "[Controller0.Core0.Tc2CoreTargIntf.OnHaltScript]",
   "",
   "[Controller0.Core0.Tc2CoreTargIntf.Suspend]",
   "STM0=1",
   "STM1=1",
   "STM2=1",
   "STM3=1",
   "STM4=1",
   "STM5=1",
   "",
   "[Controller0.PFLASH]",
   "Enabled=1",
   "EnableMemtoolByDefault=1",
   "",
   "[Controller0.DF_EEPROM]",
   "Enabled=1",
   "EnableMemtoolByDefault=1",
   "",
   "[Controller0.DF_UCBS]",
   "Enabled=1",
   "EnableMemtoolByDefault=1",
   "",
   "",
   "[Controller0.Core0.Tc2CoreTargIntf.OnConnectScript]"]

/-- Embeds `create_cfg` from `flash.rs`. In the source the body is a single
`format!` call whose format string contains no placeholder: the `udas_port`
parameter is never interpolated into the template, so the rendered
configuration is the fixed template (joined from `cfgTemplateLines`) for every
port; in particular the `DasPortSel=0` line is a literal constant of the
template. -/
def create_cfg (udas_port : Nat) : String := joinLines cfgTemplateLines

/-- Embeds the batch-script rendering inlined in `MemtoolUpload::start`
(`flash.rs`, the `mtb` binding): `halt_memtool = false` is the FullProgram
mode, `halt_memtool = true` the HaltAfterOpen mode. The argument is the
display form of the firmware path; in the source the halt branch recomputes
`temporary_files.path().join("input.hex")`, which is the same path value. -/
def render_batch (halt_memtool : Bool) (input_hex_path : String) : String :=
  if !halt_memtool then
    "connect\nopen_file " ++ input_hex_path ++ "\nselect_all_sections\nadd_selected_sections\nprogram\ndisconnect\nexit"
  else
    "connect\nopen_file " ++ input_hex_path ++ "\n"

/-- Embeds `TempDir::path().join(name)` rendered through `.display()`: the
workspace directory path joined to a file name with the host (Windows) path
separator. -/
def joinPath (dir name : String) : String := dir ++ "\\" ++ name

/-- Observable effects of `MemtoolUpload::start`, in program order:
filesystem writes (`std::fs::write`, recorded with the full path, the file
name inside the workspace, and the contents), the process spawn
(`Command::spawn`; `stdioInherited` records that no stdio redirection is
configured, so the child inherits the parent streams, the `std` default),
the `log::info!` line, and the removal of the workspace performed by
`TempDir`'s drop. -/
inductive Event where
  | writeFile (path : String) (name : String) (contents : String)
  | spawn (exe : String) (args : List String) (stdioInherited : Bool)
  | logInfo (msg : String)
  | removeWorkspace (dir : String)
deriving DecidableEq, Repr

/-- Fault model for the fallible steps of `start`: whether `TempDir::new()`
succeeds (and with which directory path), whether each `std::fs::write`
succeeds (keyed by the file name inside the workspace), and whether
`Command::spawn` succeeds. -/
structure FsEnv where
  tempDir : Option String
  writeOk : String → Bool
  spawnOk : Bool

/-- Handle to the spawned flasher process: executable, argument vector, and
whether standard I/O is inherited from the parent. -/
structure Child where
  exe : String
  args : List String
  stdioInherited : Bool
deriving DecidableEq, Repr

/-- Embeds the `MemtoolUpload` struct of `flash.rs`: the spawned child and
the owned temporary workspace (here recorded by its directory path). -/
structure MemtoolUpload where
  spawned : Child
  temporary_files : String
deriving DecidableEq, Repr

/-- Embeds `MemtoolUpload::start` over the fault model `env`: returns the
trace of observable effects together with the result. Each step mirrors the
source order: create the workspace, write `input.hex` (the `ihex` payload),
write `temp_config.cfg` (the rendered configuration), render and write
`batch.mtb`, then spawn the flasher with `["-c", <config-path>, <batch-path>]`.
An error at any step carries the `context` message from the source and, when
the workspace had been created, ends the trace with its removal (the
`TempDir` value is dropped on the early return). On success the workspace is
owned by the returned session, so no removal event is emitted. `memtoolPath`
stands for the build-time constant `env!("MEMTOOL_PATH")`. -/
def MemtoolUpload.start (env : FsEnv) (memtoolPath ihex : String)
    (halt_memtool : Bool) (udas_port : Nat) :
    List Event × Except String MemtoolUpload :=
  match env.tempDir with
  | none => ([], Except.error "Cannot create temporary directory for memtool input")
  | some ws =>
    let input_hex_path := joinPath ws "input.hex"
    if !env.writeOk "input.hex" then
      ([Event.removeWorkspace ws], Except.error "Cannot write create temporary input hex file")
    else
      let temporary_memtool_config_path := joinPath ws "temp_config.cfg"
      if !env.writeOk "temp_config.cfg" then
        ([Event.writeFile input_hex_path "input.hex" ihex, Event.removeWorkspace ws],
         Except.error "Cannot write create temporary memtool configuration file")
      else
        let mtb := render_batch halt_memtool input_hex_path
        let batch_file_path := joinPath ws "batch.mtb"
        if !env.writeOk "batch.mtb" then
          ([Event.writeFile input_hex_path "input.hex" ihex,
            Event.writeFile temporary_memtool_config_path "temp_config.cfg" (create_cfg udas_port),
            Event.removeWorkspace ws],
           Except.error "Cannot create temporary memtool batch file")
        else
          if !env.spawnOk then
            ([Event.writeFile input_hex_path "input.hex" ihex,
              Event.writeFile temporary_memtool_config_path "temp_config.cfg" (create_cfg udas_port),
              Event.writeFile batch_file_path "batch.mtb" mtb,
              Event.removeWorkspace ws],
             Except.error "Could not start memtool to flash device")
          else
            ([Event.writeFile input_hex_path "input.hex" ihex,
              Event.writeFile temporary_memtool_config_path "temp_config.cfg" (create_cfg udas_port),
              Event.writeFile batch_file_path "batch.mtb" mtb,
              Event.spawn memtoolPath ["-c", temporary_memtool_config_path, batch_file_path] true,
              Event.logInfo "Spawned Infineon Memtool to flash HEX file!"],
             Except.ok { spawned := { exe := memtoolPath,
                                      args := ["-c", temporary_memtool_config_path, batch_file_path],
                                      stdioInherited := true },
                         temporary_files := ws })

/-- Outcome of `MemtoolUpload::wait`: either a panic (which aborts the
process) with the panic message, or a normal return with the emitted
informational log line. There is no error-valued outcome, matching the `()`
return type of the source. -/
inductive WaitOutcome where
  | panicked (msg : String)
  | ok (logMsg : String)
deriving DecidableEq, Repr

/-- Embeds `MemtoolUpload::wait`. The argument is the child's termination
outcome once `Child::wait` unblocks: `none` when the OS-level wait itself
fails (the `expect` panics), `some s` when the child exits and
`ExitStatus::success()` is `s` (the `assert!` panics when `s` is false).
On success the informational log line is returned. -/
def MemtoolUpload.wait (childExit : Option Bool) : WaitOutcome :=
  match childExit with
  | none => WaitOutcome.panicked "Memtool did not exit with success"
  | some false => WaitOutcome.panicked "assertion failed: output.success()"
  | some true => WaitOutcome.ok "Infineon Memtool terminated successfully"

/-- Tests whether an event is a write of the named workspace file. -/
def isWriteName (n : String) : Event → Bool
  | Event.writeFile _ name _ => name == n
  | _ => false

/-- Tests whether an event is the process spawn. -/
def isSpawnEvent : Event → Bool
  | Event.spawn .. => true
  | _ => false

/-- Index of the first event satisfying the test, if any. -/
def findIdxE (p : Event → Bool) : List Event → Option Nat
  | [] => none
  | e :: es => if p e then some 0 else (findIdxE p es).map (· + 1)

/-- A path lies inside the workspace directory `ws` when it is `ws` extended
with the path separator and a file name. -/
def inWorkspace (ws p : String) : Prop := ∃ n, p = joinPath ws n

/-- The context messages of the fallible steps of `start`, in step order. -/
def startErrorMessages : List String :=
  ["Cannot create temporary directory for memtool input",
   "Cannot write create temporary input hex file",
   "Cannot write create temporary memtool configuration file",
   "Cannot create temporary memtool batch file",
   "Could not start memtool to flash device"]

/-- Modelled from the spec: the text line-ending convention of the Windows
host this crate (`tricore-windows`) targets, used to compare the spec's
"line endings follow host conventions" against the rendered batch bytes. -/
def hostLineEnding : String := "\r\n"

/-- Joins a list of lines with an arbitrary separator; `joinLines` is the
LF instance. Used to phrase the line-ending comparison. -/
def joinLinesWith (sep : String) : List String → String
  | [] => ""
  | [l] => l
  | l :: ls => l ++ sep ++ joinLinesWith sep ls

/-- Runtime view of a released or live session, for the release/drop claims:
whether the workspace directory still exists and whether the child flasher
process is still running. -/
structure SessionRuntime where
  workspacePresent : Bool
  childRunning : Bool
deriving DecidableEq, Repr

/-- Session lifecycle operations: an explicit `wait` (joins the child), and
`release` (dropping the `MemtoolUpload`). Modelled from the source struct and
the documented drop behavior of its fields: `MemtoolUpload` has no `Drop`
impl; dropping it drops `TempDir`, which removes the workspace directory, and
drops `std::process::Child`, which does not terminate the process. -/
inductive SessionOp where
  | wait
  | release
deriving DecidableEq, Repr

/-- One lifecycle step: `wait` blocks until the child has terminated (so the
child is no longer running afterwards); `release` removes the workspace and
leaves the child's lifetime untouched. -/
def stepOp (s : SessionRuntime) : SessionOp → SessionRuntime
  | SessionOp.wait => { s with childRunning := false }
  | SessionOp.release => { s with workspacePresent := false }

/-- Runs a sequence of lifecycle operations. -/
def runOps (s : SessionRuntime) (ops : List SessionOp) : SessionRuntime :=
  ops.foldl stepOp s

/-- Concrete fault-free environment used by the witnesses. -/
def envOk : FsEnv :=
  { tempDir := some "C:\\tmp\\ws", writeOk := fun _ => true, spawnOk := true }

/-- The workspace directory allocated by `envOk`. -/
def wsOk : String := "C:\\tmp\\ws"

/-- The session returned by `start` under `envOk` with executable
`memtool.exe`, firmware `HEX`, FullProgram mode and port 0; used by the
witnesses. -/
def uOk : MemtoolUpload :=
  { spawned := { exe := "memtool.exe",
                 args := ["-c", joinPath wsOk "temp_config.cfg", joinPath wsOk "batch.mtb"],
                 stdioInherited := true },
    temporary_files := wsOk }

/-- The trace produced by `start` under `envOk` with executable `memtool.exe`,
firmware `HEX`, FullProgram mode and port 0; used by the witnesses. -/
def trOk : List Event :=
  [Event.writeFile (joinPath wsOk "input.hex") "input.hex" "HEX",
   Event.writeFile (joinPath wsOk "temp_config.cfg") "temp_config.cfg" (create_cfg 0),
   Event.writeFile (joinPath wsOk "batch.mtb") "batch.mtb"
     (render_batch false (joinPath wsOk "input.hex")),
   Event.spawn "memtool.exe" ["-c", joinPath wsOk "temp_config.cfg", joinPath wsOk "batch.mtb"] true,
   Event.logInfo "Spawned Infineon Memtool to flash HEX file!"]

theorem splitNl_cons (c : Char) (cs : List Char) :
    splitNl (c :: cs) =
      match splitNl cs with
      | [] => [[c]]
      | x :: xs => if c = '\n' then [] :: x :: xs else (c :: x) :: xs := rfl

theorem splitNl_ne_nil (l : List Char) : splitNl l ≠ [] := by
  cases l with
  | nil => simp [splitNl]
  | cons c cs =>
    rw [splitNl_cons]
    cases h : splitNl cs with
    | nil => simp
    | cons x xs =>
      by_cases hc : c = '\n' <;> simp [hc]

theorem splitNl_no_newline (l : List Char) (h : '\n' ∉ l) : splitNl l = [l] := by
  induction l with
  | nil => rfl
  | cons c cs ih =>
    have hc : c ≠ '\n' := by
      intro hceq
      exact h (hceq ▸ List.mem_cons_self c cs)
    have hcs : '\n' ∉ cs := fun hm => h (List.mem_cons_of_mem _ hm)
    simp [splitNl, ih hcs, hc]

theorem splitNl_append (a b : List Char) (ha : '\n' ∉ a) :
    splitNl (a ++ '\n' :: b) = a :: splitNl b := by
  induction a with
  | nil =>
    simp only [List.nil_append, splitNl]
    cases h : splitNl b with
    | nil => exact absurd h (splitNl_ne_nil b)
    | cons x xs => simp [h]
  | cons c cs ih =>
    have hc : c ≠ '\n' := by
      intro hceq
      exact ha (hceq ▸ List.mem_cons_self c cs)
    have hcs : '\n' ∉ cs := fun hm => ha (List.mem_cons_of_mem _ hm)
    rw [List.cons_append, splitNl_cons, ih hcs]
    simp [hc]

theorem asString_data (s : String) : s.data.asString = s := rfl

theorem strLines_single (s : String) (h : '\n' ∉ s.data) : strLines s = [s] := by
  simp [strLines, splitNl_no_newline s.data h, asString_data]

theorem strLines_cons (a b : String) (ha : '\n' ∉ a.data) :
    strLines (a ++ "\n" ++ b) = a :: strLines b := by
  have hdata : (a ++ "\n" ++ b).data = a.data ++ '\n' :: b.data := by
    simp [String.data_append]
  simp [strLines, hdata, splitNl_append a.data b.data ha, asString_data]

theorem strLines_joinLines (ls : List String)
    (h : ∀ l ∈ ls, '\n' ∉ l.data) (hne : ls ≠ []) :
    strLines (joinLines ls) = ls := by
  induction ls with
  | nil => exact absurd rfl hne
  | cons l ls ih =>
    cases ls with
    | nil => exact strLines_single l (h l (List.mem_cons_self l []))
    | cons l' ls' =>
      have hl : '\n' ∉ l.data := h l (List.mem_cons_self _ _)
      have hrest : ∀ x ∈ l' :: ls', '\n' ∉ x.data :=
        fun x hx => h x (List.mem_cons_of_mem _ hx)
      have : joinLines (l :: l' :: ls') = l ++ "\n" ++ joinLines (l' :: ls') := rfl
      rw [this, strLines_cons l _ hl, ih hrest (by simp)]

theorem strLines_create_cfg (p : Nat) : strLines (create_cfg p) = cfgTemplateLines :=
  strLines_joinLines cfgTemplateLines (by decide) (by decide)

/-- C1: the claim asserts that for every non-negative port `p` the rendered
configuration contains exactly one line `DasPortSel=<p>`. The code violates
this: the `format!` template of `create_cfg` has no placeholder, so at the
failing input `p = 1` the rendered configuration contains no `DasPortSel=1`
line; its unique `DasPortSel` line is the literal `DasPortSel=0`, and the key
`DasPortSel` occurs in exactly one line of the file. -/
theorem create_cfg_port_not_substituted :
    (strLines (create_cfg 1)).count "DasPortSel=1" = 0 ∧
    (strLines (create_cfg 1)).count "DasPortSel=0" = 1 ∧
    (strLines (create_cfg 1)).countP (fun l => hasSub cfgKey l.data) = 1 := by
  rw [strLines_create_cfg 1]
  refine ⟨by decide, by decide, by decide⟩

/-- C2: the claim asserts determinism (true: `create_cfg` is a pure constant
function of its port, so its output is byte-stable) and that outputs for
distinct ports differ in the `DasPortSel` line. The code violates the second
part: the renderings for any two ports are byte-identical, as shown at the
failing input `p = 0`, `q = 1`. -/
theorem create_cfg_constant_across_ports :
    (∀ p q : Nat, create_cfg p = create_cfg q) ∧ create_cfg 0 = create_cfg 1 :=
  ⟨fun _ _ => rfl, rfl⟩

theorem strLines_of_data (s a b : String) (h : s.data = a.data ++ '\n' :: b.data)
    (ha : '\n' ∉ a.data) : strLines s = a :: strLines b := by
  simp [strLines, h, splitNl_append a.data b.data ha, asString_data]

theorem no_nl_open_file (p : String) (hp : '\n' ∉ p.data) :
    '\n' ∉ ("open_file " ++ p).data := by
  rw [String.data_append]
  intro hmem
  rcases List.mem_append.mp hmem with h | h
  · exact absurd h (by decide)
  · exact hp h

theorem render_batch_full_lines (p : String) (hp : '\n' ∉ p.data) :
    strLines (render_batch false p) =
      ["connect", "open_file " ++ p, "select_all_sections", "add_selected_sections",
       "program", "disconnect", "exit"] := by
  have h1 : (render_batch false p).data =
      "connect".data ++ '\n' ::
        ("open_file " ++ p ++ "\nselect_all_sections\nadd_selected_sections\nprogram\ndisconnect\nexit").data := by
    show (("connect\nopen_file " ++ p) ++ "\nselect_all_sections\nadd_selected_sections\nprogram\ndisconnect\nexit").data = _
    rw [show ("connect\nopen_file " : String) = "connect" ++ "\n" ++ "open_file " from rfl]
    simp [String.data_append, List.append_assoc]
  have h2 : ("open_file " ++ p ++ "\nselect_all_sections\nadd_selected_sections\nprogram\ndisconnect\nexit").data =
      ("open_file " ++ p).data ++ '\n' ::
        ("select_all_sections\nadd_selected_sections\nprogram\ndisconnect\nexit").data := by
    rw [show ("\nselect_all_sections\nadd_selected_sections\nprogram\ndisconnect\nexit" : String)
          = "\n" ++ "select_all_sections\nadd_selected_sections\nprogram\ndisconnect\nexit" from rfl]
    simp [String.data_append, List.append_assoc]
  rw [strLines_of_data _ _ _ h1 (by decide),
      strLines_of_data _ _ _ h2 (no_nl_open_file p hp)]
  rfl

theorem render_batch_halt_lines (p : String) (hp : '\n' ∉ p.data) :
    strLines (render_batch true p) = ["connect", "open_file " ++ p, ""] := by
  have h1 : (render_batch true p).data =
      "connect".data ++ '\n' :: ("open_file " ++ p ++ "\n").data := by
    show (("connect\nopen_file " ++ p) ++ "\n").data = _
    rw [show ("connect\nopen_file " : String) = "connect" ++ "\n" ++ "open_file " from rfl]
    simp [String.data_append, List.append_assoc]
  have h2 : ("open_file " ++ p ++ "\n").data = ("open_file " ++ p).data ++ '\n' :: ("" : String).data := by
    simp [String.data_append]
  rw [strLines_of_data _ _ _ h1 (by decide),
      strLines_of_data _ _ _ h2 (no_nl_open_file p hp)]
  rfl

/-- C3: the batch script rendered for FullProgram mode (`halt_memtool = false`)
has exactly the command lines connect, `open_file <path>` (the path inserted
as a bare unquoted token), select_all_sections, add_selected_sections,
program, disconnect, exit, in that order; the batch script rendered for
HaltAfterOpen mode (`halt_memtool = true`) has the command lines connect and
`open_file <path>` only (followed by the empty segment after the trailing
newline). Stated for any firmware path whose display form contains no
newline. -/
theorem render_batch_mode_coverage (p : String) (hp : '\n' ∉ p.data) :
    strLines (render_batch false p) =
      ["connect", "open_file " ++ p, "select_all_sections", "add_selected_sections",
       "program", "disconnect", "exit"] ∧
    strLines (render_batch true p) = ["connect", "open_file " ++ p, ""] :=
  ⟨render_batch_full_lines p hp, render_batch_halt_lines p hp⟩

/-- Witness for C3 at the concrete path `C:\ws\input.hex`. -/
theorem render_batch_mode_coverage_witness :
    '\n' ∉ ("C:\\ws\\input.hex" : String).data ∧
    (strLines (render_batch false "C:\\ws\\input.hex") =
      ["connect", "open_file " ++ "C:\\ws\\input.hex", "select_all_sections",
       "add_selected_sections", "program", "disconnect", "exit"] ∧
     strLines (render_batch true "C:\\ws\\input.hex") =
      ["connect", "open_file " ++ "C:\\ws\\input.hex", ""]) :=
  ⟨by decide, render_batch_mode_coverage "C:\\ws\\input.hex" (by decide)⟩

theorem str_data_ext (a b : String) (h : a.data = b.data) : a = b := by
  cases a
  cases b
  exact congrArg String.mk h

theorem joinLines_batch_full (p : String) :
    joinLinesWith "\n"
      ["connect", "open_file " ++ p, "select_all_sections", "add_selected_sections",
       "program", "disconnect", "exit"] = render_batch false p := by
  apply str_data_ext
  have e1 : ("connect\nopen_file " : String).data = "connect".data ++ '\n' :: "open_file ".data := rfl
  have e2 : ("\nselect_all_sections\nadd_selected_sections\nprogram\ndisconnect\nexit" : String).data
      = '\n' :: ("select_all_sections".data ++ '\n' :: ("add_selected_sections".data
          ++ '\n' :: ("program".data ++ '\n' :: ("disconnect".data ++ '\n' :: "exit".data)))) := rfl
  have en : ("\n" : String).data = ['\n'] := rfl
  show _ = (("connect\nopen_file " ++ p) ++ "\nselect_all_sections\nadd_selected_sections\nprogram\ndisconnect\nexit").data
  simp [joinLinesWith, String.data_append, e1, e2, en, List.append_assoc]

theorem joinLines_batch_halt (p : String) :
    joinLinesWith "\n" ["connect", "open_file " ++ p, ""] = render_batch true p := by
  apply str_data_ext
  have e1 : ("connect\nopen_file " : String).data = "connect".data ++ '\n' :: "open_file ".data := rfl
  have en : ("\n" : String).data = ['\n'] := rfl
  show _ = (("connect\nopen_file " ++ p) ++ "\n").data
  simp [joinLinesWith, String.data_append, e1, en, List.append_assoc]

/-- C8 counterexample: at the concrete input (FullProgram mode, firmware path
`input.hex`) the rendered batch script does not use the host (Windows)
line-ending convention `hostLineEnding = CRLF`: it is not the CRLF-joining of
its command lines, and the CRLF byte pair does not occur in it at all. -/
theorem render_batch_not_host_line_endings :
    render_batch false "input.hex" ≠
      joinLinesWith hostLineEnding
        ["connect", "open_file input.hex", "select_all_sections", "add_selected_sections",
         "program", "disconnect", "exit"] ∧
    hasSub hostLineEnding.data (render_batch false "input.hex").data = false := by
  refine ⟨by decide, by decide⟩

/-- C8 amended: for every mode and every firmware path (whose display form
contains no newline and no carriage return) the rendered batch script is
line-oriented with one command per line, but the line separator is always the
single LF character, not the host platform convention: the script is exactly
its command lines joined with LF, and no carriage return occurs in it. -/
theorem render_batch_lf_separated (m : Bool) (p : String)
    (hp : '\n' ∉ p.data) (hr : '\r' ∉ p.data) :
    joinLinesWith "\n" (strLines (render_batch m p)) = render_batch m p ∧
    '\r' ∉ (render_batch m p).data ∧
    (strLines (render_batch m p)).length = (if m then 3 else 7) := by
  cases m with
  | false =>
    refine ⟨?_, ?_, ?_⟩
    · rw [render_batch_full_lines p hp, joinLines_batch_full]
    · show '\r' ∉ (("connect\nopen_file " ++ p) ++ "\nselect_all_sections\nadd_selected_sections\nprogram\ndisconnect\nexit").data
      simp only [String.data_append, List.mem_append]
      rintro ((h | h) | h)
      · exact absurd h (by decide)
      · exact hr h
      · exact absurd h (by decide)
    · rw [render_batch_full_lines p hp]
      rfl
  | true =>
    refine ⟨?_, ?_, ?_⟩
    · rw [render_batch_halt_lines p hp, joinLines_batch_halt]
    · show '\r' ∉ (("connect\nopen_file " ++ p) ++ "\n").data
      simp only [String.data_append, List.mem_append]
      rintro ((h | h) | h)
      · exact absurd h (by decide)
      · exact hr h
      · exact absurd h (by decide)
    · rw [render_batch_halt_lines p hp]
      rfl

/-- Witness for the amended C8 at the concrete path `input.hex` in FullProgram
mode. -/
theorem render_batch_lf_separated_witness :
    '\n' ∉ ("input.hex" : String).data ∧ '\r' ∉ ("input.hex" : String).data ∧
    (joinLinesWith "\n" (strLines (render_batch false "input.hex")) = render_batch false "input.hex" ∧
     '\r' ∉ (render_batch false "input.hex").data ∧
     (strLines (render_batch false "input.hex")).length = (if false then 3 else 7)) :=
  ⟨by decide, by decide, render_batch_lf_separated false "input.hex" (by decide) (by decide)⟩

theorem lastChar_render_full (p : String) : lastChar (render_batch false p) = some 't' := by
  show ((("connect\nopen_file " ++ p) ++ "\nselect_all_sections\nadd_selected_sections\nprogram\ndisconnect\nexit").data).getLast? = some 't'
  rw [String.data_append,
      show ("\nselect_all_sections\nadd_selected_sections\nprogram\ndisconnect\nexit" : String).data
        = ("\nselect_all_sections\nadd_selected_sections\nprogram\ndisconnect\nexi" : String).data ++ ['t'] from rfl,
      ← List.append_assoc, List.getLast?_concat]

/-- C10: the batch script rendered for HaltAfterOpen mode (`halt_memtool =
true`) ends with a trailing newline after the `open_file` command, whereas
the batch script rendered for FullProgram mode (`halt_memtool = false`) ends
with the bare token `exit` and no trailing newline (its final byte is the
`t` of `exit`). -/
theorem render_batch_termination (p : String) :
    lastChar (render_batch true p) = some '\n' ∧
    (∃ s, render_batch false p = s ++ "exit") ∧
    lastChar (render_batch false p) ≠ some '\n' := by
  refine ⟨?_, ?_, ?_⟩
  · show ((("connect\nopen_file " ++ p) ++ "\n").data).getLast? = some '\n'
    rw [String.data_append, show ("\n" : String).data = [] ++ ['\n'] from rfl,
        ← List.append_assoc, List.getLast?_concat]
  · refine ⟨("connect\nopen_file " ++ p) ++ "\nselect_all_sections\nadd_selected_sections\nprogram\ndisconnect\n", ?_⟩
    show ("connect\nopen_file " ++ p) ++ "\nselect_all_sections\nadd_selected_sections\nprogram\ndisconnect\nexit" = _
    rw [show ("\nselect_all_sections\nadd_selected_sections\nprogram\ndisconnect\nexit" : String)
          = "\nselect_all_sections\nadd_selected_sections\nprogram\ndisconnect\n" ++ "exit" from rfl,
        ← String.append_assoc]
  · rw [lastChar_render_full p]
    intro h
    exact absurd (Option.some.inj h) (by decide)

/-- C4: `wait` blocks until the child terminates and never returns an error
value: whenever the child's termination outcome is not a success (the child
exited with a non-success status, or the OS-level wait failed), `wait` panics
with a fatal diagnostic (aborting the process); it returns normally exactly
on successful termination, emitting the informational log line. -/
theorem wait_fatal_on_failure :
    (∀ st : Option Bool, st ≠ some true →
        ∃ m, MemtoolUpload.wait st = WaitOutcome.panicked m) ∧
    (∀ st m, MemtoolUpload.wait st = WaitOutcome.ok m →
        st = some true ∧ m = "Infineon Memtool terminated successfully") ∧
    MemtoolUpload.wait (some true) =
      WaitOutcome.ok "Infineon Memtool terminated successfully" := by
  refine ⟨?_, ?_, rfl⟩
  · intro st hst
    match st with
    | none => exact ⟨_, rfl⟩
    | some false => exact ⟨_, rfl⟩
    | some true => exact absurd rfl hst
  · intro st m h
    match st, h with
    | some true, h =>
      exact ⟨rfl, (WaitOutcome.ok.inj h).symm⟩

/-- Witness for C4: at the concrete outcomes, a non-success exit panics and a
successful exit returns the log line. -/
theorem wait_fatal_on_failure_witness :
    (∃ m, MemtoolUpload.wait (some false) = WaitOutcome.panicked m) ∧
    MemtoolUpload.wait (some true) =
      WaitOutcome.ok "Infineon Memtool terminated successfully" :=
  ⟨wait_fatal_on_failure.1 (some false) (by decide), wait_fatal_on_failure.2.2⟩

/-- C9: releasing a session never terminates the child flasher process. Over
any sequence of lifecycle operations that contains no explicit `wait`, the
child's running state is unchanged (in particular a bare `release` leaves a
running child running, as HaltAfterOpen mode relies on), while `release`
does remove the workspace. -/
theorem release_does_not_kill_child (s : SessionRuntime) (ops : List SessionOp)
    (h : SessionOp.wait ∉ ops) :
    (runOps s ops).childRunning = s.childRunning ∧
    (runOps s [SessionOp.release]).workspacePresent = false := by
  refine ⟨?_, rfl⟩
  induction ops generalizing s with
  | nil => rfl
  | cons op ops ih =>
    have hop : op ≠ SessionOp.wait := fun he => h (he ▸ List.mem_cons_self _ _)
    have hops : SessionOp.wait ∉ ops := fun hm => h (List.mem_cons_of_mem _ hm)
    cases op with
    | wait => exact absurd rfl hop
    | release =>
      show (runOps { s with workspacePresent := false } ops).childRunning = s.childRunning
      rw [ih _ hops]

/-- Witness for C9: a running child stays running across a bare release, and
the workspace is removed. -/
theorem release_does_not_kill_child_witness :
    (runOps { workspacePresent := true, childRunning := true } [SessionOp.release]).childRunning
        = ({ workspacePresent := true, childRunning := true } : SessionRuntime).childRunning ∧
    (runOps { workspacePresent := true, childRunning := true } [SessionOp.release]).workspacePresent
        = false :=
  release_does_not_kill_child
    { workspacePresent := true, childRunning := true } [SessionOp.release] (by decide)

theorem start_ok_inversion (env : FsEnv) (mp ihex : String) (hm : Bool) (port : Nat)
    (tr : List Event) (u : MemtoolUpload)
    (h : MemtoolUpload.start env mp ihex hm port = (tr, Except.ok u)) :
    ∃ ws, env.tempDir = some ws ∧
      tr = [Event.writeFile (joinPath ws "input.hex") "input.hex" ihex,
            Event.writeFile (joinPath ws "temp_config.cfg") "temp_config.cfg" (create_cfg port),
            Event.writeFile (joinPath ws "batch.mtb") "batch.mtb"
              (render_batch hm (joinPath ws "input.hex")),
            Event.spawn mp ["-c", joinPath ws "temp_config.cfg", joinPath ws "batch.mtb"] true,
            Event.logInfo "Spawned Infineon Memtool to flash HEX file!"] ∧
      u = { spawned := { exe := mp,
                         args := ["-c", joinPath ws "temp_config.cfg", joinPath ws "batch.mtb"],
                         stdioInherited := true },
            temporary_files := ws } := by
  cases hT : env.tempDir with
  | none => simp [MemtoolUpload.start, hT] at h
  | some ws =>
    refine ⟨ws, rfl, ?_⟩
    cases hw1 : env.writeOk "input.hex" with
    | false => simp [MemtoolUpload.start, hT, hw1] at h
    | true =>
    cases hw2 : env.writeOk "temp_config.cfg" with
    | false => simp [MemtoolUpload.start, hT, hw1, hw2] at h
    | true =>
    cases hw3 : env.writeOk "batch.mtb" with
    | false => simp [MemtoolUpload.start, hT, hw1, hw2, hw3] at h
    | true =>
    cases hs : env.spawnOk with
    | false => simp [MemtoolUpload.start, hT, hw1, hw2, hw3, hs] at h
    | true =>
      simp only [MemtoolUpload.start, hT, hw1, hw2, hw3, hs, Bool.not_true,
        Bool.false_eq_true, if_false, Prod.mk.injEq, Except.ok.injEq] at h
      exact ⟨h.1.symm, h.2.symm⟩

/-- C5: when `start` succeeds, the flasher executable is invoked with exactly
the argument vector `["-c", <config-path>, <batch-path>]` in that order, both
paths lie inside the session's workspace directory, and the standard I/O
streams are inherited from the parent (the source configures no stdio
redirection on the `Command`). -/
theorem start_argument_vector (env : FsEnv) (mp ihex : String) (hm : Bool) (port : Nat)
    (tr : List Event) (u : MemtoolUpload)
    (h : MemtoolUpload.start env mp ihex hm port = (tr, Except.ok u)) :
    u.spawned.exe = mp ∧
    u.spawned.args = ["-c", joinPath u.temporary_files "temp_config.cfg",
                      joinPath u.temporary_files "batch.mtb"] ∧
    u.spawned.stdioInherited = true ∧
    Event.spawn mp u.spawned.args true ∈ tr ∧
    inWorkspace u.temporary_files (joinPath u.temporary_files "temp_config.cfg") ∧
    inWorkspace u.temporary_files (joinPath u.temporary_files "batch.mtb") := by
  obtain ⟨ws, hT, htr, hu⟩ := start_ok_inversion env mp ihex hm port tr u h
  subst htr
  subst hu
  refine ⟨rfl, rfl, rfl, ?_, ⟨"temp_config.cfg", rfl⟩, ⟨"batch.mtb", rfl⟩⟩
  simp

/-- Witness for C5 under the fault-free environment `envOk`. -/
theorem start_argument_vector_witness :
    MemtoolUpload.start envOk "memtool.exe" "HEX" false 0 = (trOk, Except.ok uOk) ∧
    (uOk.spawned.exe = "memtool.exe" ∧
     uOk.spawned.args = ["-c", joinPath uOk.temporary_files "temp_config.cfg",
                         joinPath uOk.temporary_files "batch.mtb"] ∧
     uOk.spawned.stdioInherited = true ∧
     Event.spawn "memtool.exe" uOk.spawned.args true ∈ trOk ∧
     inWorkspace uOk.temporary_files (joinPath uOk.temporary_files "temp_config.cfg") ∧
     inWorkspace uOk.temporary_files (joinPath uOk.temporary_files "batch.mtb")) :=
  ⟨rfl, start_argument_vector envOk "memtool.exe" "HEX" false 0 trOk uOk rfl⟩

/-- C7: when `start` succeeds, the trace of effects writes the firmware file
before the batch script, writes the configuration file before the child is
spawned, and spawns the child only after all three files have been written. -/
theorem start_write_ordering (env : FsEnv) (mp ihex : String) (hm : Bool) (port : Nat)
    (tr : List Event) (u : MemtoolUpload)
    (h : MemtoolUpload.start env mp ihex hm port = (tr, Except.ok u)) :
    ∃ iHex iCfg iBatch iSpawn : Nat,
      findIdxE (isWriteName "input.hex") tr = some iHex ∧
      findIdxE (isWriteName "temp_config.cfg") tr = some iCfg ∧
      findIdxE (isWriteName "batch.mtb") tr = some iBatch ∧
      findIdxE isSpawnEvent tr = some iSpawn ∧
      iHex < iBatch ∧ iCfg < iSpawn ∧ iHex < iSpawn ∧ iBatch < iSpawn := by
  obtain ⟨ws, hT, htr, hu⟩ := start_ok_inversion env mp ihex hm port tr u h
  subst htr
  have b1 : (("input.hex" : String) == "temp_config.cfg") = false := by decide
  have b2 : (("input.hex" : String) == "batch.mtb") = false := by decide
  have b3 : (("temp_config.cfg" : String) == "batch.mtb") = false := by decide
  refine ⟨0, 1, 2, 3, ?_, ?_, ?_, ?_, by decide, by decide, by decide, by decide⟩
  · simp [findIdxE, isWriteName]
  · simp [findIdxE, isWriteName, b1]
  · simp [findIdxE, isWriteName, b2, b3]
  · simp [findIdxE, isWriteName, isSpawnEvent]

/-- Witness for C7 under the fault-free environment `envOk`. -/
theorem start_write_ordering_witness :
    ∃ iHex iCfg iBatch iSpawn : Nat,
      findIdxE (isWriteName "input.hex") trOk = some iHex ∧
      findIdxE (isWriteName "temp_config.cfg") trOk = some iCfg ∧
      findIdxE (isWriteName "batch.mtb") trOk = some iBatch ∧
      findIdxE isSpawnEvent trOk = some iSpawn ∧
      iHex < iBatch ∧ iCfg < iSpawn ∧ iHex < iSpawn ∧ iBatch < iSpawn :=
  start_write_ordering envOk "memtool.exe" "HEX" false 0 trOk uOk rfl

/-- C6: `start` returns a session exactly when workspace allocation, the
firmware write, the config write, the batch write, and the process spawn all
succeed; on any failure the error carries one of the source's context
messages and, whenever the workspace had been allocated, the trace ends with
its removal (the workspace, with any artifacts already written into it, is
released), so no session is returned and no partial artifacts remain. -/
theorem start_session_iff_steps (env : FsEnv) (mp ihex : String) (hm : Bool) (port : Nat) :
    ((MemtoolUpload.start env mp ihex hm port).2.isOk = true ↔
      env.tempDir.isSome = true ∧ env.writeOk "input.hex" = true ∧
      env.writeOk "temp_config.cfg" = true ∧ env.writeOk "batch.mtb" = true ∧
      env.spawnOk = true) ∧
    (∀ tr msg, MemtoolUpload.start env mp ihex hm port = (tr, Except.error msg) →
      msg ∈ startErrorMessages ∧
      ∀ ws, env.tempDir = some ws → tr.getLast? = some (Event.removeWorkspace ws)) := by
  refine ⟨?_, ?_⟩
  · cases hT : env.tempDir with
    | none => simp [MemtoolUpload.start, hT, Except.isOk, Except.toBool]
    | some ws =>
      cases hw1 : env.writeOk "input.hex" <;>
        cases hw2 : env.writeOk "temp_config.cfg" <;>
          cases hw3 : env.writeOk "batch.mtb" <;>
            cases hs : env.spawnOk <;>
              simp [MemtoolUpload.start, hT, hw1, hw2, hw3, hs, Except.isOk, Except.toBool]
  · intro tr msg h
    cases hT : env.tempDir with
    | none =>
      simp only [MemtoolUpload.start, hT, Prod.mk.injEq, Except.error.injEq] at h
      obtain ⟨h1, h2⟩ := h
      refine ⟨by rw [← h2]; simp [startErrorMessages], ?_⟩
      intro ws hws
      exact Option.noConfusion hws
    | some ws =>
      cases hw1 : env.writeOk "input.hex" with
      | false =>
        simp only [MemtoolUpload.start, hT, hw1, Bool.not_false, if_true,
          Prod.mk.injEq, Except.error.injEq] at h
        obtain ⟨h1, h2⟩ := h
        refine ⟨by rw [← h2]; simp [startErrorMessages], ?_⟩
        intro ws' hws
        obtain rfl : ws' = ws := (Option.some.inj hws).symm
        rw [← h1]
        rfl
      | true =>
      cases hw2 : env.writeOk "temp_config.cfg" with
      | false =>
        simp only [MemtoolUpload.start, hT, hw1, hw2, Bool.not_true, Bool.not_false,
          if_true, Bool.false_eq_true, if_false, Prod.mk.injEq, Except.error.injEq] at h
        obtain ⟨h1, h2⟩ := h
        refine ⟨by rw [← h2]; simp [startErrorMessages], ?_⟩
        intro ws' hws
        obtain rfl : ws' = ws := (Option.some.inj hws).symm
        rw [← h1]
        rfl
      | true =>
      cases hw3 : env.writeOk "batch.mtb" with
      | false =>
        simp only [MemtoolUpload.start, hT, hw1, hw2, hw3, Bool.not_true, Bool.not_false,
          if_true, Bool.false_eq_true, if_false, Prod.mk.injEq, Except.error.injEq] at h
        obtain ⟨h1, h2⟩ := h
        refine ⟨by rw [← h2]; simp [startErrorMessages], ?_⟩
        intro ws' hws
        obtain rfl : ws' = ws := (Option.some.inj hws).symm
        rw [← h1]
        rfl
      | true =>
      cases hs : env.spawnOk with
      | false =>
        simp only [MemtoolUpload.start, hT, hw1, hw2, hw3, hs, Bool.not_true, Bool.not_false,
          if_true, Bool.false_eq_true, if_false, Prod.mk.injEq, Except.error.injEq] at h
        obtain ⟨h1, h2⟩ := h
        refine ⟨by rw [← h2]; simp [startErrorMessages], ?_⟩
        intro ws' hws
        obtain rfl : ws' = ws := (Option.some.inj hws).symm
        rw [← h1]
        rfl
      | true =>
        simp [MemtoolUpload.start, hT, hw1, hw2, hw3, hs] at h

/-- Witness for C6 under the fault-free environment `envOk`: every step
succeeds, so a session is returned. -/
theorem start_session_iff_steps_witness :
    (MemtoolUpload.start envOk "memtool.exe" "HEX" false 0).2.isOk = true :=
  (start_session_iff_steps envOk "memtool.exe" "HEX" false 0).1.mpr
    ⟨rfl, rfl, rfl, rfl, rfl⟩
